import Mathlib

/-!
Shallow embedding of `pkg/provisioner/block/block.go` from the
oci-volume-provisioner repository, together with proofs about the claims of
its specification.

Modelling conventions:
* Go `int64` arithmetic wraps (two's complement); where the wrap can matter
  (`roundUpSize`) we model it explicitly with `i64wrap`.  Division is Go's
  truncated division, i.e. `Int.div`.
* The external OCI client, the instance-metadata service and the process
  environment are modelled by a `ProvisionEnv` record scripting the outcome of
  every outbound call.
* Time is modelled in seconds.  `Provision` starts at time 0; network calls are
  instantaneous; the poll loop of `wait.PollImmediate(5s, timeout, cond)` runs
  its condition immediately and then once per 5-second tick, i.e. attempt `i`
  happens at time `5*i`, and at most `timeout / 5 + 1` attempts are made.
  A Go `context` is modelled by its absolute deadline (a `Nat`);
  `context.WithTimeout(ctx, d)` at time `t` yields deadline `min ctx (t + d)`,
  and a call whose context deadline is `≤` the current time fails with
  `ctxDeadlineExceeded`.
* Network calls made by `Provision` are recorded in an event trace so that
  claims about "no network call" / "exactly one delete call" are statable.
-/

namespace Block

/-- Volume lifecycle states of the OCI core SDK (`core.VolumeLifecycleState*`). -/
inductive VolumeLifecycleState where
  | provisioning
  | restoring
  | available
  | terminating
  | terminated
  | faulty
  deriving DecidableEq, Repr

/-- Kubernetes persistent-volume access modes (`v1.ReadWriteOnce` etc.). -/
inductive AccessMode where
  | readWriteOnce
  | readOnlyMany
  | readWriteMany
  deriving DecidableEq, Repr

/-- Go `error` values that the embedded code can produce or receive. -/
inductive GoErr where
  /-- a provider-level not-found classified error -/
  | notFound (msg : String)
  /-- `context.DeadlineExceeded` -/
  | ctxDeadlineExceeded
  /-- `wait.ErrWaitTimeout`, returned by `wait.PollImmediate` on timeout -/
  | waitTimeout
  /-- `fmt.Errorf("volume has lifecycle state %q", state)` (block.go:120) -/
  | lifecycleState (s : VolumeLifecycleState)
  /-- `fmt.Errorf("failed to provision volume %q: %v", *volumeID, err)` (block.go:128) -/
  | provisionFailed (volumeId : String) (inner : GoErr)
  /-- `fmt.Errorf("invalid access mode %v specified. ...", accessMode, ...)` (block.go:150) -/
  | invalidAccessMode (m : AccessMode)
  /-- `fmt.Errorf("could not determine volume size for PVC")` (block.go:157) -/
  | missingCapacity
  /-- `errors.New("volumeid annotation not found on PV")` (block.go:257) -/
  | missingVolumeIdAnn
  /-- any other error -/
  | other (msg : String)
  deriving DecidableEq, Repr

/-- Name of the oci volume id annotation (block.go:47). -/
def OCIVolumeID : String := "ociVolumeID"

/-- Name of the oci volume backup id annotation (block.go:49). -/
def OCIVolumeBackupID : String := "volume.beta.kubernetes.io/oci-volume-source"

/-- Name of the file storage type parameter for storage classes (block.go:51). -/
def FSType : String := "fsType"

/-- Name of the request-level rounding parameter (block.go:52). -/
def volumeRoundingUpEnabled : String := "volumeRoundingUpEnabled"

/-- Modelled from the spec: the zone-region label key used by the `plugin`
package, which is not under src/; its exact value is immaterial here. -/
def LabelZoneRegion : String := "failure-domain.beta.kubernetes.io/region"

/-- Modelled from the spec: the failure-domain label key used by the `plugin`
package, which is not under src/; its exact value is immaterial here. -/
def LabelZoneFailureDomain : String := "failure-domain.beta.kubernetes.io/zone"

/-- Modelled from the spec: the flex-volume driver name of the `plugin`
package, which is not under src/; its exact value is immaterial here. -/
def OCIProvisionerName : String := "oracle/oci"

/-- Lookup in a Go `map[string]string`, modelled as an association list. -/
def lookup (m : List (String × String)) (k : String) : Option String :=
  (m.find? (fun p => p.1 == k)).map (fun p => p.2)

/-- Two's-complement wrap of a mathematical integer into `int64` range. -/
def i64wrap (x : Int) : Int := (x + 2 ^ 63) % 2 ^ 64 - 2 ^ 63

/-- block.go:99-101.  `int64` ceiling division:
`(volumeSizeBytes + allocationUnitBytes - 1) / allocationUnitBytes`.
The additions wrap as `int64`; the division is Go's truncated division. -/
def roundUpSize (volumeSizeBytes allocationUnitBytes : Int) : Int :=
  Int.tdiv (i64wrap (volumeSizeBytes + allocationUnitBytes - 1)) allocationUnitBytes

/-- Go `strconv.ParseBool`. -/
def parseBool (s : String) : Except GoErr Bool :=
  if s = "1" ∨ s = "t" ∨ s = "T" ∨ s = "true" ∨ s = "TRUE" ∨ s = "True" then
    .ok true
  else if s = "0" ∨ s = "f" ∨ s = "F" ∨ s = "false" ∨ s = "FALSE" ∨ s = "False" then
    .ok false
  else
    .error (.other "ParseBool: parsing: invalid syntax")

/-- block.go:135-143.  Request-level rounding flag: defaults to `true`; set to
`false` only when the parameter parses successfully to `false`. -/
def volumeRoundingEnabled (param : List (String × String)) : Bool :=
  match lookup param volumeRoundingUpEnabled with
  | some volumeRoundingUpParam =>
    match parseBool volumeRoundingUpParam with
    | .ok enabled => if enabled = false then false else true
    | .error _ => true
  | none => true

/-- The `blockProvisioner` configuration (block.go:56-63).  `minVolumeSize` is
the `resource.Quantity` value in bytes; `timeout` is the overall provisioning
timeout and `clientTimeout` is `client.Timeout()`, both in seconds. -/
structure BlockProvisionerCfg where
  volumeRoundingEnabled : Bool
  minVolumeSize : Int
  timeout : Nat
  clientTimeout : Nat
  deriving DecidableEq, Repr

/-- Outcome of a `DeleteVolume` call: the raw HTTP status code when a raw
response is present, and the returned Go error, if any. -/
structure DeleteOutcome where
  rawStatusCode : Option Nat
  err : Option GoErr
  deriving DecidableEq, Repr

/-- The scripted outside world: outcomes of the outbound calls that a single
`Provision` run can make, plus the `OCI_SHORT_REGION` environment variable.
`getVolume i` is the provider's answer to the `i`-th status poll, when that
poll's context deadline has not yet expired. -/
structure ProvisionEnv where
  createVolume : Except GoErr String
  getVolume : Nat → Except GoErr VolumeLifecycleState
  deleteVolume : DeleteOutcome
  metadataGet : Except GoErr String
  envShortRegion : Option String

/-- The request as consumed by `Provision` (`controller.VolumeOptions` plus
the fields of `options.PVC` that block.go reads). -/
structure VolumeOptions where
  accessModes : List AccessMode
  storageRequest : Option Int
  pvcName : String
  pvcAnnotations : List (String × String)
  parameters : List (String × String)
  mountOptions : List String
  reclaimPolicy : String
  deriving DecidableEq, Repr

/-- The fields of the `v1.PersistentVolume` descriptor that block.go:222-247
constructs. -/
structure PersistentVolumeModel where
  name : String
  annotations : List (String × String)
  labels : List (String × String)
  reclaimPolicy : String
  accessModes : List AccessMode
  capacityStorage : Int
  flexDriver : String
  fsType : String
  mountOptions : List String
  deriving DecidableEq, Repr

/-- One outbound network call made by `Provision`. -/
inductive CallEvent where
  | createVolume (sizeInMBs : Int) (sourceBackupId : Option String)
  | getVolume (i : Nat)
  | deleteVolume (volumeId : String)
  | metadataGet
  deriving DecidableEq, Repr

/-- Recognizer for delete events in a call trace. -/
def isDeleteEvent : CallEvent → Bool
  | .deleteVolume _ => true
  | _ => false

/-- Result of a `Provision` run: the returned value, the trace of outbound
network calls, and whether the minimum-size rounding warning was logged
(block.go:171). -/
structure ProvisionResult where
  result : Except GoErr PersistentVolumeModel
  calls : List CallEvent
  warned : Bool

/-- block.go:91-97. -/
def resolveFSType (options : VolumeOptions) : String :=
  match lookup options.parameters FSType with
  | some fsType => fsType
  | none => "ext4"

/-- block.go:108-109 together with the context plumbing of block.go:105.
The `GetVolume` status query of poll attempt `i`, made at time `5*i`: its
context deadline is `min ctxDeadline (5*i + clientTimeout)` (the inner
`context.WithTimeout` of block.go:105 applied to the parent deadline), and the
call fails with `context.DeadlineExceeded` once that deadline has arrived. -/
def getVolumeAttempt (getVol : Nat → Except GoErr VolumeLifecycleState)
    (ctxDeadline clientTimeout i : Nat) : Except GoErr VolumeLifecycleState :=
  if min ctxDeadline (5 * i + clientTimeout) ≤ 5 * i then .error .ctxDeadlineExceeded
  else getVol i

/-- block.go:110-122.  Classification of one status-query outcome by the
`isVolumeReady` closure: an error is returned as is; `available` is ready;
`faulty`, `terminated` and `terminating` are terminal failures; every other
state means "not yet ready". -/
def isVolumeReadyResult (resp : Except GoErr VolumeLifecycleState) : Except GoErr Bool :=
  match resp with
  | .error e => .error e
  | .ok state =>
    match state with
    | .available => .ok true
    | .faulty => .error (.lifecycleState .faulty)
    | .terminated => .error (.lifecycleState .terminated)
    | .terminating => .error (.lifecycleState .terminating)
    | _ => .ok false

/-- The full `isVolumeReady` closure of block.go:104-123 at poll attempt `i`. -/
def isVolumeReadyAt (getVol : Nat → Except GoErr VolumeLifecycleState)
    (ctxDeadline clientTimeout i : Nat) : Except GoErr Bool :=
  isVolumeReadyResult (getVolumeAttempt getVol ctxDeadline clientTimeout i)

/-- block.go:125-131.  The `wait.PollImmediate` loop: attempt `i`, with `fuel`
attempts remaining.  A condition error is wrapped by block.go:128 and aborts
the loop; `true` stops with success; `false` waits 5 seconds and re-polls;
exhausted fuel is `wait.ErrWaitTimeout`.  The second component is the list of
poll attempts that were made. -/
def pollLoop (getVol : Nat → Except GoErr VolumeLifecycleState)
    (ctxDeadline clientTimeout : Nat) (volumeId : String) :
    Nat → Nat → Except GoErr Unit × List Nat
  | 0, _ => (.error .waitTimeout, [])
  | fuel + 1, i =>
    match isVolumeReadyAt getVol ctxDeadline clientTimeout i with
    | .error e => (.error (.provisionFailed volumeId e), [i])
    | .ok true => (.ok (), [i])
    | .ok false =>
      let rest := pollLoop getVol ctxDeadline clientTimeout volumeId fuel (i + 1)
      (rest.1, i :: rest.2)

/-- block.go:103-133.  `waitForVolumeAvailable`: poll every 5 seconds, bounded
by `timeout`, i.e. at most `timeout / 5 + 1` attempts (the immediate one plus
one per tick).  `ctxDeadline` is the deadline already carried by the context
handed in by `Provision` (block.go:199). -/
def waitForVolumeAvailable (getVol : Nat → Except GoErr VolumeLifecycleState)
    (ctxDeadline clientTimeout : Nat) (volumeId : String) (timeout : Nat) :
    Except GoErr Unit × List Nat :=
  pollLoop getVol ctxDeadline clientTimeout volumeId (timeout / 5 + 1) 0

/-- The effective (size-in-MB, capacity, warned) triple after the
minimum-size-floor step. -/
structure EffectiveSize where
  volSizeMB : Int
  capacity : Int
  warned : Bool
  deriving DecidableEq, Repr

/-- block.go:160 and block.go:168-174.  `volSizeMB` starts as
`roundUpSize(capacity.Value(), 1024*1024)`; when rounding is enabled at the
request level and globally and `minVolumeSize.Cmp(capacity) == 1` (that is,
`capacity < minVolumeSize`), both the size and the capacity are replaced by the
minimum and a warning is logged. -/
def effectiveCapAndSize (cfg : BlockProvisionerCfg) (parameters : List (String × String))
    (capacity : Int) : EffectiveSize :=
  let volSizeMB := roundUpSize capacity (1024 * 1024)
  if volumeRoundingEnabled parameters then
    if cfg.volumeRoundingEnabled = true ∧ capacity < cfg.minVolumeSize then
      { volSizeMB := roundUpSize cfg.minVolumeSize (1024 * 1024)
      , capacity := cfg.minVolumeSize
      , warned := true }
    else { volSizeMB := volSizeMB, capacity := capacity, warned := false }
  else { volSizeMB := volSizeMB, capacity := capacity, warned := false }

/-- The persistent-volume descriptor built at block.go:222-247. -/
def mkPV (volumeId region adName : String) (options : VolumeOptions)
    (capacity : Int) (filesystemType : String) : PersistentVolumeModel :=
  { name := volumeId
  , annotations := [(OCIVolumeID, volumeId)]
  , labels := [(LabelZoneRegion, region), (LabelZoneFailureDomain, adName)]
  , reclaimPolicy := options.reclaimPolicy
  , accessModes := options.accessModes
  , capacityStorage := capacity
  , flexDriver := OCIProvisionerName
  , fsType := filesystemType
  , mountOptions := options.mountOptions }

/-- block.go:146-250.  `Provision`:
1. reject on the first access mode different from `ReadWriteOnce`;
2. fail when no storage capacity is requested;
3. compute the effective size (minimum floor, block.go:160-174);
4. `CreateVolume` (the context of block.go:189 has deadline `clientTimeout`);
5. `waitForVolumeAvailable` on the same, short-deadline context;
6. on a poll failure, issue one best-effort `DeleteVolume` whose outcome is
   discarded (block.go:205) and return the poll error;
7. resolve the region from `OCI_SHORT_REGION`, else from instance metadata,
   whose failure is returned with no cleanup (block.go:213-220);
8. assemble the descriptor. -/
def Provision (cfg : BlockProvisionerCfg) (env : ProvisionEnv) (options : VolumeOptions)
    (adName : String) : ProvisionResult :=
  match options.accessModes.find? (fun m => decide (m ≠ AccessMode.readWriteOnce)) with
  | some m => { result := .error (.invalidAccessMode m), calls := [], warned := false }
  | none =>
    match options.storageRequest with
    | none => { result := .error .missingCapacity, calls := [], warned := false }
    | some capacity0 =>
      let eff := effectiveCapAndSize cfg options.parameters capacity0
      let sourceBackup := lookup options.pvcAnnotations OCIVolumeBackupID
      let createCall := CallEvent.createVolume eff.volSizeMB sourceBackup
      match env.createVolume with
      | .error e => { result := .error e, calls := [createCall], warned := eff.warned }
      | .ok volumeId =>
        let waited := waitForVolumeAvailable env.getVolume cfg.clientTimeout cfg.clientTimeout
          volumeId cfg.timeout
        let getCalls := waited.2.map CallEvent.getVolume
        match waited.1 with
        | .error e =>
          { result := .error e
          , calls := createCall :: getCalls ++ [CallEvent.deleteVolume volumeId]
          , warned := eff.warned }
        | .ok _ =>
          let filesystemType := resolveFSType options
          match env.envShortRegion with
          | some region =>
            { result := .ok (mkPV volumeId region adName options eff.capacity filesystemType)
            , calls := createCall :: getCalls
            , warned := eff.warned }
          | none =>
            match env.metadataGet with
            | .error e =>
              { result := .error e
              , calls := createCall :: getCalls ++ [CallEvent.metadataGet]
              , warned := eff.warned }
            | .ok region =>
              { result := .ok (mkPV volumeId region adName options eff.capacity filesystemType)
              , calls := createCall :: getCalls ++ [CallEvent.metadataGet]
              , warned := eff.warned }

/-- Modelled from the spec: `provisioner.IsNotFound` (from the `provisioner`
package, not under src/) recognizes a provider-level not-found error
classification; on a nil error it is false. -/
def IsNotFound : Option GoErr → Bool
  | some (.notFound _) => true
  | _ => false

/-- block.go:253-280.  `Delete`: fail when the `ociVolumeID` annotation is
absent; issue the delete; a raw HTTP 404 status or a provider-level not-found
error is success; otherwise the delete error (possibly nil) is returned. -/
def Delete (volume : PersistentVolumeModel) (outcome : DeleteOutcome) : Option GoErr :=
  match lookup volume.annotations OCIVolumeID with
  | none => some .missingVolumeIdAnn
  | some _ =>
    if outcome.rawStatusCode = some 404 then none
    else if IsNotFound outcome.err then none
    else outcome.err

/-- A trace of status-poll events contains no delete event. -/
theorem filter_delete_map_get (l : List Nat) :
    (l.map CallEvent.getVolume).filter isDeleteEvent = [] := by
  induction l with
  | nil => rfl
  | cons a t ih => simp [List.filter, isDeleteEvent, ih]

/-- C4, counterexample.  The claim quantifies over every byte capacity
`C ≥ 0` and unit `U > 0`, but `roundUpSize` computes `C + U - 1` in `int64`
arithmetic, which wraps: at `C = 2^63 - 1`, `U = 2` the result times `U` is
negative, so `roundUpSize C U * U ≥ C` fails. -/
theorem roundUpSize_overflow_counterexample :
    (0 : Int) ≤ 2 ^ 63 - 1 ∧ (0 : Int) < 2 ∧
    ¬ ((2 ^ 63 - 1 : Int) ≤ roundUpSize (2 ^ 63 - 1) 2 * 2) := by
  refine ⟨by norm_num, by norm_num, by decide⟩

/-- C4, amended.  For every requested byte capacity `C ≥ 0` and allocation
unit `U > 0` such that `C + U - 1` does not overflow `int64`,
`roundUpSize C U * U ≥ C` and `roundUpSize C U * U < C + U`; and `C = 0`
yields `0` units. -/
theorem roundUpSize_spec (C U : Int) (hC : 0 ≤ C) (hU : 0 < U)
    (hno : C + U - 1 ≤ 2 ^ 63 - 1) :
    C ≤ roundUpSize C U * U ∧ roundUpSize C U * U < C + U ∧
    (C = 0 → roundUpSize C U = 0) := by
  have hx0 : (0 : Int) ≤ C + U - 1 := by linarith
  have hwrap : i64wrap (C + U - 1) = C + U - 1 := by
    unfold i64wrap
    have hpow : (2 : Int) ^ 64 = 2 ^ 63 + 2 ^ 63 := by norm_num
    have h1 : (0 : Int) ≤ C + U - 1 + 2 ^ 63 := by positivity
    have h2 : C + U - 1 + 2 ^ 63 < 2 ^ 64 := by linarith
    rw [Int.emod_eq_of_lt h1 h2]; ring
  have hdiv : roundUpSize C U = (C + U - 1) / U := by
    unfold roundUpSize
    rw [hwrap, Int.tdiv_eq_ediv hx0 (le_of_lt hU)]
  have hle : (C + U - 1) / U * U ≤ C + U - 1 := Int.ediv_mul_le _ (ne_of_gt hU)
  have hlt : C + U - 1 < ((C + U - 1) / U + 1) * U := Int.lt_ediv_add_one_mul_self _ hU
  rw [add_mul, one_mul] at hlt
  refine ⟨?_, ?_, ?_⟩
  · rw [hdiv]; linarith
  · rw [hdiv]; linarith
  · intro hc0
    rw [hdiv, hc0]
    exact Int.ediv_eq_zero_of_lt (by linarith) (by linarith)

/-- C4, witness at `C = 5`, `U = 2`. -/
theorem roundUpSize_spec_witness :
    (5 : Int) ≤ roundUpSize 5 2 * 2 ∧ roundUpSize 5 2 * 2 < 5 + 2 ∧
    ((5 : Int) = 0 → roundUpSize 5 2 = 0) :=
  roundUpSize_spec 5 2 (by norm_num) (by norm_num) (by norm_num)

/-- C10.  The request-level rounding flag is `false` exactly when the
parameters map carries the `volumeRoundingUpEnabled` key with a value that
`strconv.ParseBool` parses successfully to `false`; an absent key, a parse
error, or a value parsing to `true` leave it at the default `true`. -/
theorem volumeRoundingEnabled_false_iff (param : List (String × String)) :
    volumeRoundingEnabled param = false ↔
      ∃ v, lookup param volumeRoundingUpEnabled = some v ∧ parseBool v = .ok false := by
  unfold volumeRoundingEnabled
  cases h : lookup param volumeRoundingUpEnabled with
  | none => simp [h]
  | some v =>
    cases hp : parseBool v with
    | error e => simp [h, hp]
    | ok b => cases b <;> simp [h, hp]

/-- C3.  `Delete` returns a non-nil error exactly when the `ociVolumeID`
annotation is absent, or the delete call returned an error that is not
not-found classified while the raw response status was not 404; in
particular a 404 status or a provider-level not-found error yields nil. -/
theorem delete_error_iff (volume : PersistentVolumeModel) (outcome : DeleteOutcome) :
    (Delete volume outcome).isSome = true ↔
      (lookup volume.annotations OCIVolumeID = none ∨
        (∃ e, outcome.err = some e ∧ IsNotFound outcome.err = false ∧
          outcome.rawStatusCode ≠ some 404)) := by
  unfold Delete
  cases h : lookup volume.annotations OCIVolumeID with
  | none => simp [h]
  | some v =>
    simp only [h]
    by_cases h404 : outcome.rawStatusCode = some 404
    · simp [h404]
    · cases he : outcome.err with
      | none => simp [h404, he, IsNotFound]
      | some e => cases e <;> simp [h404, he, IsNotFound]

/-- C6.  Classification of a single availability poll and its effect on the
loop: `available` is the only ready state; `faulty`, `terminated` and
`terminating` are the only states mapped to a terminal lifecycle error; every
other state re-polls; a transport error on the query is passed through, and
any error outcome aborts the loop at once (wrapped by block.go:128), with no
further poll. -/
theorem poll_classification :
    (∀ s, isVolumeReadyResult (.ok s) =
        (if s = .available then .ok true
          else if s = .faulty ∨ s = .terminated ∨ s = .terminating then
            .error (.lifecycleState s)
          else .ok false)) ∧
    (∀ e, isVolumeReadyResult (.error e) = .error e) ∧
    (∀ getVol cd ct v fuel i e, isVolumeReadyAt getVol cd ct i = .error e →
        pollLoop getVol cd ct v (fuel + 1) i = (.error (.provisionFailed v e), [i])) ∧
    (∀ getVol cd ct v fuel i, isVolumeReadyAt getVol cd ct i = .ok true →
        pollLoop getVol cd ct v (fuel + 1) i = (.ok (), [i])) ∧
    (∀ getVol cd ct v fuel i, isVolumeReadyAt getVol cd ct i = .ok false →
        pollLoop getVol cd ct v (fuel + 1) i =
          ((pollLoop getVol cd ct v fuel (i + 1)).1,
            i :: (pollLoop getVol cd ct v fuel (i + 1)).2)) := by
  refine ⟨?_, ?_, ?_, ?_, ?_⟩
  · intro s; cases s <;> rfl
  · intro e; rfl
  · intro getVol cd ct v fuel i e h; simp [pollLoop, h]
  · intro getVol cd ct v fuel i h; simp [pollLoop, h]
  · intro getVol cd ct v fuel i h; simp [pollLoop, h]

/-- A provider that always reports the volume as still `provisioning`. -/
def getVolStuck : Nat → Except GoErr VolumeLifecycleState :=
  fun _ => .ok .provisioning

/-- C6, witness: a poll seeing `available` at attempt 0 stops the loop, and a
stuck provider re-polls at attempt 0. -/
theorem poll_classification_witness :
    pollLoop (fun _ => .ok .available) 30 30 "vol" (0 + 1) 0 = (.ok (), [0]) ∧
    isVolumeReadyResult (.ok .faulty) =
      (if VolumeLifecycleState.faulty = .available then .ok true
        else if VolumeLifecycleState.faulty = .faulty ∨
            VolumeLifecycleState.faulty = .terminated ∨
            VolumeLifecycleState.faulty = .terminating then
          .error (.lifecycleState .faulty)
        else .ok false) :=
  ⟨poll_classification.2.2.2.1 (fun _ => .ok .available) 30 30 "vol" 0 0 rfl,
    poll_classification.1 .faulty⟩

/-- C7.  With a 30-second client call timeout, a 600-second overall
provisioning timeout and a provider that stays in `provisioning` forever, the
poll loop does not keep re-polling until the overall timeout: block.go:189
installs the short per-call deadline on the context that block.go:199 then
hands to `waitForVolumeAvailable`, so the poll at `t = 30s` (attempt 6) fails
with `context.DeadlineExceeded` and the loop aborts with that transport error
after 7 of the 121 possible attempts, instead of reaching
`wait.ErrWaitTimeout` at 600 seconds. -/
theorem poll_loop_cut_short_by_per_call_deadline :
    waitForVolumeAvailable getVolStuck 30 30 "vol" 600 =
      (.error (.provisionFailed "vol" .ctxDeadlineExceeded), [0, 1, 2, 3, 4, 5, 6]) ∧
    600 / 5 + 1 = 121 :=
  ⟨rfl, rfl⟩

/-- A configuration with rounding globally enabled, a 50 GiB minimum volume
size, a 10-second provisioning timeout and a 30-second client call timeout. -/
def cfgW : BlockProvisionerCfg :=
  { volumeRoundingEnabled := true
  , minVolumeSize := 50 * 2 ^ 30
  , timeout := 10
  , clientTimeout := 30 }

/-- A world in which every call succeeds and the volume is immediately
available; the region comes from the environment override. -/
def envW : ProvisionEnv :=
  { createVolume := .ok "ocid1.volume.oc1.phx.aaaa"
  , getVolume := fun _ => .ok .available
  , deleteVolume := { rawStatusCode := some 200, err := none }
  , metadataGet := .ok "phx"
  , envShortRegion := some "phx" }

/-- A well-formed 100 GiB request with the single-writer access mode. -/
def optsW : VolumeOptions :=
  { accessModes := [.readWriteOnce]
  , storageRequest := some (100 * 2 ^ 30)
  , pvcName := "pvc-1"
  , pvcAnnotations := []
  , parameters := []
  , mountOptions := []
  , reclaimPolicy := "Delete" }

/-- The same request with an empty access-mode list. -/
def optsEmptyModes : VolumeOptions := { optsW with accessModes := [] }

/-- C1, counterexample.  A request whose access-mode set is empty — hence not
exactly the singleton ReadWriteOnce set — is not rejected: `Provision` makes
network calls (a create and a poll) and returns a descriptor. -/
theorem empty_access_modes_not_rejected :
    optsEmptyModes.accessModes = [] ∧
    (Provision cfgW envW optsEmptyModes "AD-1").calls ≠ [] ∧
    (Provision cfgW envW optsEmptyModes "AD-1").result =
      .ok (mkPV "ocid1.volume.oc1.phx.aaaa" "phx" "AD-1" optsEmptyModes
        (100 * 2 ^ 30) "ext4") :=
  ⟨rfl, by decide, rfl⟩

/-- C1, amended.  `Provision` rejects — with an invalid-access-mode error and
zero network calls — exactly on the first access mode different from
ReadWriteOnce; so every request *containing* a mode other than ReadWriteOnce
is rejected before any network call, while a request with an empty access-mode
list passes this validation. -/
theorem access_mode_validation (cfg : BlockProvisionerCfg) (env : ProvisionEnv)
    (options : VolumeOptions) (adName : String) (m : AccessMode)
    (hm : m ∈ options.accessModes) (hne : m ≠ .readWriteOnce) :
    (∃ m2, m2 ≠ AccessMode.readWriteOnce ∧
      (Provision cfg env options adName).result = .error (.invalidAccessMode m2)) ∧
    (Provision cfg env options adName).calls = [] := by
  have hsome :
      (options.accessModes.find? (fun m => decide (m ≠ AccessMode.readWriteOnce))).isSome := by
    rw [List.find?_isSome]
    exact ⟨m, hm, by simpa using hne⟩
  obtain ⟨m2, hfind⟩ := Option.isSome_iff_exists.mp hsome
  have hm2 : m2 ≠ AccessMode.readWriteOnce := by simpa using List.find?_some hfind
  unfold Provision
  rw [hfind]
  exact ⟨⟨m2, hm2, rfl⟩, rfl⟩

/-- The same request asking for the read-only-many access mode. -/
def optsROM : VolumeOptions := { optsW with accessModes := [AccessMode.readOnlyMany] }

/-- C1, witness at a request carrying the ReadOnlyMany mode. -/
theorem access_mode_validation_witness :
    (∃ m2, m2 ≠ AccessMode.readWriteOnce ∧
      (Provision cfgW envW optsROM "AD-1").result = .error (.invalidAccessMode m2)) ∧
    (Provision cfgW envW optsROM "AD-1").calls = [] :=
  access_mode_validation cfgW envW optsROM "AD-1" .readOnlyMany (by decide) (by decide)

/-- C2.  Whenever the availability poll of a validated, created volume ends in
an error (a `Failed` lifecycle classification or `wait.ErrWaitTimeout`),
`Provision` issues exactly one delete call, for the created handle, and
returns the polling error.  The delete outcome `d` is universally quantified
and absent from the error returned, so the result is the same whether the
delete succeeds or fails: its outcome is discarded (block.go:205). -/
theorem provision_failure_cleanup (cfg : BlockProvisionerCfg) (env : ProvisionEnv)
    (options : VolumeOptions) (adName volumeId : String) (e : GoErr) (c : Int)
    (d : DeleteOutcome)
    (hmodes : options.accessModes.find? (fun m => decide (m ≠ AccessMode.readWriteOnce)) = none)
    (hcap : options.storageRequest = some c)
    (hcreate : env.createVolume = .ok volumeId)
    (hwait : (waitForVolumeAvailable env.getVolume cfg.clientTimeout cfg.clientTimeout
        volumeId cfg.timeout).1 = .error e) :
    (Provision cfg { env with deleteVolume := d } options adName).result = .error e ∧
    (Provision cfg { env with deleteVolume := d } options adName).calls.filter isDeleteEvent =
      [CallEvent.deleteVolume volumeId] := by
  unfold Provision
  simp only [hmodes, hcap, hcreate, hwait, List.filter_cons, List.filter_append,
    filter_delete_map_get]
  refine ⟨?_, ?_⟩ <;> simp [isDeleteEvent]

/-- A world whose volume immediately reports the `faulty` lifecycle state. -/
def envFaulty : ProvisionEnv := { envW with getVolume := fun _ => .ok .faulty }

/-- A failing delete outcome. -/
def delFailed : DeleteOutcome := { rawStatusCode := some 500, err := some (.other "delete failed") }

/-- C2, witness: the faulty volume is deleted exactly once and the lifecycle
polling error is returned even though the delete itself failed. -/
theorem provision_failure_cleanup_witness :
    (Provision cfgW { envFaulty with deleteVolume := delFailed } optsW "AD-1").result =
      .error (.provisionFailed "ocid1.volume.oc1.phx.aaaa"
        (.lifecycleState .faulty)) ∧
    (Provision cfgW { envFaulty with deleteVolume := delFailed }
        optsW "AD-1").calls.filter isDeleteEvent =
      [CallEvent.deleteVolume "ocid1.volume.oc1.phx.aaaa"] :=
  provision_failure_cleanup cfgW envFaulty optsW "AD-1" "ocid1.volume.oc1.phx.aaaa"
    (.provisionFailed "ocid1.volume.oc1.phx.aaaa" (.lifecycleState .faulty))
    (100 * 2 ^ 30) delFailed (by rfl) (by rfl) (by rfl) (by rfl)

/-- C8.  After the volume is ready, the region prefers the environment
override (no metadata call is then made); otherwise it is taken from instance
metadata; and when the metadata lookup fails, `Provision` returns exactly that
error and issues no delete call for the already-created volume. -/
theorem provision_region_resolution (cfg : BlockProvisionerCfg) (env : ProvisionEnv)
    (options : VolumeOptions) (adName volumeId : String) (c : Int)
    (hmodes : options.accessModes.find? (fun m => decide (m ≠ AccessMode.readWriteOnce)) = none)
    (hcap : options.storageRequest = some c)
    (hcreate : env.createVolume = .ok volumeId)
    (hwait : (waitForVolumeAvailable env.getVolume cfg.clientTimeout cfg.clientTimeout
        volumeId cfg.timeout).1 = .ok ()) :
    (∀ r, env.envShortRegion = some r →
      ∃ pv, (Provision cfg env options adName).result = .ok pv ∧
        lookup pv.labels LabelZoneRegion = some r ∧
        CallEvent.metadataGet ∉ (Provision cfg env options adName).calls) ∧
    (∀ r, env.envShortRegion = none → env.metadataGet = .ok r →
      ∃ pv, (Provision cfg env options adName).result = .ok pv ∧
        lookup pv.labels LabelZoneRegion = some r) ∧
    (∀ e, env.envShortRegion = none → env.metadataGet = .error e →
      (Provision cfg env options adName).result = .error e ∧
      (Provision cfg env options adName).calls.filter isDeleteEvent = []) := by
  refine ⟨?_, ?_, ?_⟩
  · intro r hreg
    refine ⟨mkPV volumeId r adName options
      (effectiveCapAndSize cfg options.parameters c).capacity (resolveFSType options),
      ?_, ?_, ?_⟩
    · simp only [Provision, hmodes, hcap, hcreate, hwait, hreg]
    · simp [mkPV, lookup]
    · simp only [Provision, hmodes, hcap, hcreate, hwait, hreg]
      simp [List.mem_cons, List.mem_map]
  · intro r hreg hmeta
    refine ⟨mkPV volumeId r adName options
      (effectiveCapAndSize cfg options.parameters c).capacity (resolveFSType options),
      ?_, ?_⟩
    · simp only [Provision, hmodes, hcap, hcreate, hwait, hreg, hmeta]
    · simp [mkPV, lookup]
  · intro e hreg hmeta
    constructor
    · simp only [Provision, hmodes, hcap, hcreate, hwait, hreg, hmeta]
    · simp only [Provision, hmodes, hcap, hcreate, hwait, hreg, hmeta,
        List.filter_cons, List.filter_append, filter_delete_map_get]
      rfl

/-- A ready volume but a broken metadata service and no region override. -/
def envMetaDown : ProvisionEnv :=
  { envW with
    envShortRegion := none,
    metadataGet := .error (.other "metadata service unavailable") }

/-- C8, witness: on metadata failure the metadata error is returned and no
delete call is made. -/
theorem provision_region_resolution_witness :
    (Provision cfgW envMetaDown optsW "AD-1").result =
      .error (.other "metadata service unavailable") ∧
    (Provision cfgW envMetaDown optsW "AD-1").calls.filter isDeleteEvent = [] :=
  (provision_region_resolution cfgW envMetaDown optsW "AD-1"
      "ocid1.volume.oc1.phx.aaaa" (100 * 2 ^ 30) (by rfl) (by rfl) (by rfl) (by rfl)).2.2
    (.other "metadata service unavailable") (by rfl) (by rfl)

/-- C5.  For a validated, successfully provisioned request of capacity
`c < minVolumeSize`: with rounding enabled both at the request level and
globally, the creation payload size and the descriptor capacity come from the
minimum and the rounding warning is logged (and no error arises from the
rounding); with rounding disabled at either level the requested capacity is
passed through unchanged and no warning is logged. -/
theorem provision_min_size_floor (cfg : BlockProvisionerCfg) (env : ProvisionEnv)
    (options : VolumeOptions) (adName volumeId r : String) (c : Int)
    (hmodes : options.accessModes.find? (fun m => decide (m ≠ AccessMode.readWriteOnce)) = none)
    (hcap : options.storageRequest = some c)
    (hlt : c < cfg.minVolumeSize)
    (hcreate : env.createVolume = .ok volumeId)
    (hwait : (waitForVolumeAvailable env.getVolume cfg.clientTimeout cfg.clientTimeout
        volumeId cfg.timeout).1 = .ok ())
    (hreg : env.envShortRegion = some r) :
    (volumeRoundingEnabled options.parameters = true ∧ cfg.volumeRoundingEnabled = true →
      (Provision cfg env options adName).warned = true ∧
      (Provision cfg env options adName).calls.head? =
        some (.createVolume (roundUpSize cfg.minVolumeSize (1024 * 1024))
          (lookup options.pvcAnnotations OCIVolumeBackupID)) ∧
      ∃ pv, (Provision cfg env options adName).result = .ok pv ∧
        pv.capacityStorage = cfg.minVolumeSize) ∧
    (volumeRoundingEnabled options.parameters = false ∨ cfg.volumeRoundingEnabled = false →
      (Provision cfg env options adName).warned = false ∧
      (Provision cfg env options adName).calls.head? =
        some (.createVolume (roundUpSize c (1024 * 1024))
          (lookup options.pvcAnnotations OCIVolumeBackupID)) ∧
      ∃ pv, (Provision cfg env options adName).result = .ok pv ∧
        pv.capacityStorage = c) := by
  constructor
  · rintro ⟨hreq, hglob⟩
    have heff : effectiveCapAndSize cfg options.parameters c =
        { volSizeMB := roundUpSize cfg.minVolumeSize (1024 * 1024)
        , capacity := cfg.minVolumeSize
        , warned := true } := by
      simp [effectiveCapAndSize, hreq, hglob, hlt]
    refine ⟨?_, ?_, ?_⟩
    · simp only [Provision, hmodes, hcap, hcreate, hwait, hreg, heff]
    · simp only [Provision, hmodes, hcap, hcreate, hwait, hreg, heff]
      rfl
    · refine ⟨mkPV volumeId r adName options cfg.minVolumeSize (resolveFSType options),
        ?_, rfl⟩
      simp only [Provision, hmodes, hcap, hcreate, hwait, hreg, heff]
  · intro hdis
    have heff : effectiveCapAndSize cfg options.parameters c =
        { volSizeMB := roundUpSize c (1024 * 1024)
        , capacity := c
        , warned := false } := by
      rcases hdis with hreq | hglob
      · simp [effectiveCapAndSize, hreq]
      · simp [effectiveCapAndSize, hglob]
    refine ⟨?_, ?_, ?_⟩
    · simp only [Provision, hmodes, hcap, hcreate, hwait, hreg, heff]
    · simp only [Provision, hmodes, hcap, hcreate, hwait, hreg, heff]
      rfl
    · refine ⟨mkPV volumeId r adName options c (resolveFSType options), ?_, rfl⟩
      simp only [Provision, hmodes, hcap, hcreate, hwait, hreg, heff]

/-- A 40 GiB request, below the 50 GiB minimum of `cfgW`. -/
def opts40 : VolumeOptions := { optsW with storageRequest := some (40 * 2 ^ 30) }

/-- C5, witness: a 40 GiB request with a 50 GiB minimum and rounding enabled
at both levels is created and reported at 50 GiB, with the warning logged. -/
theorem provision_min_size_floor_witness :
    (Provision cfgW envW opts40 "AD-1").warned = true ∧
    (Provision cfgW envW opts40 "AD-1").calls.head? =
      some (.createVolume (roundUpSize cfgW.minVolumeSize (1024 * 1024))
        (lookup opts40.pvcAnnotations OCIVolumeBackupID)) ∧
    ∃ pv, (Provision cfgW envW opts40 "AD-1").result = .ok pv ∧
      pv.capacityStorage = cfgW.minVolumeSize :=
  (provision_min_size_floor cfgW envW opts40 "AD-1" "ocid1.volume.oc1.phx.aaaa" "phx"
      (40 * 2 ^ 30) (by rfl) (by rfl) (by decide) (by rfl) (by rfl) (by rfl)).1
    ⟨by rfl, by rfl⟩

/-- C9.  A volume handle appears in a returned descriptor only when the
created volume's availability poll (bounded by the configured timeout)
succeeded; and every successful return embeds the created handle as the
descriptor's object name and as its `ociVolumeID` annotation, with the
descriptor's capacity equal to the effective (possibly floor-rounded)
capacity. -/
theorem provision_descriptor_invariant (cfg : BlockProvisionerCfg) (env : ProvisionEnv)
    (options : VolumeOptions) (adName : String) (pv : PersistentVolumeModel)
    (h : (Provision cfg env options adName).result = .ok pv) :
    ∃ volumeId c,
      env.createVolume = .ok volumeId ∧
      options.storageRequest = some c ∧
      (waitForVolumeAvailable env.getVolume cfg.clientTimeout cfg.clientTimeout volumeId
        cfg.timeout).1 = .ok () ∧
      pv.name = volumeId ∧
      lookup pv.annotations OCIVolumeID = some volumeId ∧
      pv.capacityStorage = (effectiveCapAndSize cfg options.parameters c).capacity := by
  unfold Provision at h
  cases hfind : options.accessModes.find? (fun m => decide (m ≠ AccessMode.readWriteOnce)) with
  | some m => rw [hfind] at h; simp at h
  | none =>
  rw [hfind] at h
  dsimp only at h
  cases hcap : options.storageRequest with
  | none => rw [hcap] at h; simp at h
  | some c =>
  rw [hcap] at h
  dsimp only at h
  cases hcreate : env.createVolume with
  | error e => rw [hcreate] at h; simp at h
  | ok volumeId =>
  rw [hcreate] at h
  dsimp only at h
  cases hwait : (waitForVolumeAvailable env.getVolume cfg.clientTimeout cfg.clientTimeout
      volumeId cfg.timeout).1 with
  | error e => rw [hwait] at h; simp at h
  | ok u =>
  rw [hwait] at h
  dsimp only at h
  cases hreg : env.envShortRegion with
  | some region =>
    rw [hreg] at h
    simp only [Except.ok.injEq] at h
    exact ⟨volumeId, c, rfl, rfl, by rw [hwait], by rw [← h]; rfl,
      by rw [← h]; simp [mkPV, lookup], by rw [← h]; rfl⟩
  | none =>
    rw [hreg] at h
    dsimp only at h
    cases hmeta : env.metadataGet with
    | error e => rw [hmeta] at h; simp at h
    | ok region =>
      rw [hmeta] at h
      simp only [Except.ok.injEq] at h
      exact ⟨volumeId, c, rfl, rfl, by rw [hwait], by rw [← h]; rfl,
        by rw [← h]; simp [mkPV, lookup], by rw [← h]; rfl⟩

/-- The descriptor produced by the all-success world. -/
def pvW : PersistentVolumeModel :=
  mkPV "ocid1.volume.oc1.phx.aaaa" "phx" "AD-1" optsW (100 * 2 ^ 30) "ext4"

/-- C9, witness at the all-success world. -/
theorem provision_descriptor_invariant_witness :
    ∃ volumeId c,
      envW.createVolume = .ok volumeId ∧
      optsW.storageRequest = some c ∧
      (waitForVolumeAvailable envW.getVolume cfgW.clientTimeout cfgW.clientTimeout volumeId
        cfgW.timeout).1 = .ok () ∧
      pvW.name = volumeId ∧
      lookup pvW.annotations OCIVolumeID = some volumeId ∧
      pvW.capacityStorage = (effectiveCapAndSize cfgW optsW.parameters c).capacity :=
  provision_descriptor_invariant cfgW envW optsW "AD-1" pvW (by rfl)

end Block
